import Mathlib

/-!
Shallow embedding of the news-bot publication engine
(`config.py`, `news_bot/article_processor.py`, `news_bot/bot.py`,
`news_bot/database.py`, `news_bot/rss_parser.py`, `news_bot/utils.py`).

Modelling conventions:
* Python strings are `List Char` (`Text`); `str.lower()` is modelled by a
  per-character map covering ASCII and Cyrillic (the alphabets occurring in
  the configured keyword tables).
* Python floats are exact rationals `ℚ`.
* `datetime` values are natural-number second counts; `timedelta.days` values
  appear as integer day counts.
* External collaborators (the translator service, the sentiment analyzer, the
  events table, Telegram delivery, the random source) are parameters of the
  embedded functions.
-/

set_option maxRecDepth 4000

namespace NewsBot

abbrev Text := List Char

/-- Python `str.lower()` restricted to the alphabets used by the
configuration tables: ASCII `A`-`Z` and Cyrillic `А`-`Я`/`Ё`. -/
def pyToLower (c : Char) : Char :=
  if 65 ≤ c.toNat ∧ c.toNat ≤ 90 then Char.ofNat (c.toNat + 32)
  else if 0x410 ≤ c.toNat ∧ c.toNat ≤ 0x42F then Char.ofNat (c.toNat + 32)
  else if c.toNat = 0x401 then Char.ofNat 0x451
  else c

def lower (t : Text) : Text := t.map pyToLower

/-- Python's substring test `pat in s` (contiguous substring; an empty
pattern is contained in every string). -/
def pyIn (pat : Text) : Text → Bool
  | [] => pat.isPrefixOf []
  | c :: rest => pat.isPrefixOf (c :: rest) || pyIn pat rest

/-- Fuel-driven core of Python `str.count`: counts non-overlapping,
left-to-right occurrences of `pat`. The fuel is the remaining length, which
bounds the number of steps. -/
def countOccF (pat : Text) : ℕ → Text → ℕ
  | 0, _ => 0
  | _ + 1, [] => 0
  | fuel + 1, c :: rest =>
    if pat.isPrefixOf (c :: rest) then
      1 + countOccF pat fuel (rest.drop (pat.length - 1))
    else
      countOccF pat fuel rest

/-- Python `content.count(keyword)` (non-overlapping substring count;
`''.count` inside a string of length `n` is `n + 1`). -/
def countOcc (pat s : Text) : ℕ :=
  if pat = [] then s.length + 1 else countOccF pat s.length s

/-- Python whitespace recognised by `str.strip()` (ASCII subset). -/
def isPySpace (c : Char) : Bool :=
  c = ' ' || c = '\t' || c = '\n' || c = '\r' || c = '\x0b' || c = '\x0c'

/-- Python `str.strip()`. -/
def pyStrip (t : Text) : Text :=
  ((t.dropWhile isPySpace).reverse.dropWhile isPySpace).reverse

/-- Helper for the regex `<.*?>`: drop through the first `'>'`, provided no
newline intervenes (`.` does not match a newline); `none` when the pattern
cannot match at this position. -/
def spanToGt : Text → Option Text
  | [] => none
  | c :: rest => if c = '>' then some rest else if c = '\n' then none else spanToGt rest

/-- Fuel-driven `re.sub('<.*?>', '', raw)`: left-to-right, non-overlapping
minimal matches from `'<'` to the next `'>'` on the same line. -/
def stripTags : ℕ → Text → Text
  | 0, t => t
  | _ + 1, [] => []
  | fuel + 1, c :: rest =>
    if c = '<' then
      match spanToGt rest with
      | some rest' => stripTags fuel rest'
      | none => c :: stripTags fuel rest
    else c :: stripTags fuel rest

/-- `utils.clean_html`: strip `<.*?>` tags, then `str.strip()`. -/
def clean_html (raw_html : Text) : Text :=
  pyStrip (stripTags raw_html.length raw_html)

/-- Index of the last `' '` in `t` (Python `str.rfind(' ')`), `none` when
absent (Python returns `-1`). -/
def rfindSpace (t : Text) : Option ℕ :=
  match t.reverse.findIdx? (fun c => c = ' ') with
  | none => none
  | some j => some (t.length - 1 - j)

/-- `utils.truncate_summary`: truncate to `max_length` characters, backing up
to the last space when one exists, then append `"..."`. -/
def truncate_summary (summary : Text) (max_length : ℕ) : Text :=
  if summary.length ≤ max_length then summary
  else
    let truncated := summary.take max_length
    let truncated :=
      match rfindSpace truncated with
      | some i => truncated.take i
      | none => truncated
    truncated ++ ('.' :: '.' :: '.' :: [])

/-! ## Configuration (`config.py`) -/

def ARTICLES_PER_FEED : ℕ := 10
def MIN_PUBLICATION_INTERVAL : ℕ := 3
def MAX_PUBLICATIONS_PER_HOUR : ℕ := 20
def MIN_INTEREST_SCORE : ℚ := 3 / 2
def SUMMARY_LENGTH : ℕ := 200
def TOP_ARTICLES_PERCENTAGE : ℚ := 7 / 10

def BREAKING_NEWS_KEYWORDS : List Text :=
  ["breaking", "срочно", "just announced", "world first", "revolutionary",
   "game-changing", "major acquisition", "critical vulnerability"].map (fun s => s.data)

def PRIORITY_SOURCES : List Text :=
  ["techcrunch.com", "wired.com", "theverge.com", "artificialintelligence-news.com"].map
    (fun s => s.data)

def PRIORITY_CATEGORIES : List Text :=
  ["инновации", "научные_публикации", "ии_и_нейросети", "кибербезопасность",
   "робототехника", "мобильные_устройства"].map (fun s => s.data)

def category_weights : List (Text × ℚ) :=
  [("технологии", 2), ("инновации", 22/10), ("научный_прорыв", 21/10),
   ("ии_и_нейросети", 25/10), ("блокчейн", 15/10), ("кибербезопасность", 2),
   ("робототехника", 22/10), ("vr_ar", 18/10), ("интернет_вещей", 17/10),
   ("5g", 18/10), ("биотехнологии", 19/10), ("нанотехнологии", 18/10),
   ("зеленые_технологии", 17/10), ("космос", 21/10), ("стартапы", 15/10),
   ("инвестиции", 13/10), ("патенты", 14/10), ("научные_публикации", 19/10),
   ("энергетика", 16/10), ("медицина", 17/10), ("транспорт", 15/10),
   ("образование", 14/10), ("финтех", 15/10), ("криптовалюты", 14/10),
   ("геймификация", 13/10), ("мобильные_устройства", 17/10)].map
    (fun p => (p.1.data, p.2))

/-- `category_weights.get(category, 0.0)`. -/
def weightOf (cat : Text) : ℚ :=
  match category_weights.find? (fun p => p.1 = cat) with
  | some p => p.2
  | none => 0

def BLACKLIST_KEYWORDS : List Text :=
  ["скидка", "распродажа", "Prime Day", "Black Friday", "Cyber Monday",
   "сэкономить", "дешевле", "акция", "уценка", "бесплатно",
   "купить", "продажа", "цена снижена", "специальное предложение",
   "скидок", "выгодная цена", "выгодное предложение", "экономия"].map (fun s => s.data)

def importance_keywords : List Text :=
  ["важно", "критично", "прорыв", "революционно", "впервые"].map (fun s => s.data)

def category_keywords : List (Text × List Text) :=
  [("технологии",
    ["технология", "технологический", "tech", "technology", "hardware", "software",
     "гаджет", "девайс", "цифровой", "электроника"]),
   ("инновации",
    ["инновация", "инновационный", "innovation", "новшество", "прорыв", "революционный",
     "передовой", "новаторский", "pioneering"]),
   ("научный_прорыв",
    ["breakthrough", "discovery", "прорыв", "научный", "эксперимент", "гипотеза",
     "теория", "феномен", "закономерность", "scientific"]),
   ("ии_и_нейросети",
    ["искусственный интеллект", "artificial intelligence", "AI assistant", "AI safety",
     "AI system", "AI algorithm", "AI-powered", "AI-driven", "нейросеть", "machine learning",
     "deep learning", "neural network", "нейронная сеть", "машинное обучение",
     "глубокое обучение", "чат-бот AI", "AI image recognition", "AI распознавание образов",
     "AI модель", "AI model"]),
   ("блокчейн",
    ["blockchain", "блокчейн", "distributed ledger", "smart contract", "криптография",
     "децентрализация", "токен", "майнинг", "хеширование", "консенсус",
     "распределенный реестр", "умный контракт"]),
   ("кибербезопасность",
    ["cybersecurity", "кибербезопасность", "hacking", "encryption", "firewall",
     "защита данных", "информационная безопасность", "антивирус", "шифрование",
     "брандмауэр", "уязвимость", "киберугроза"]),
   ("робототехника",
    ["robotics", "робототехника", "robot", "робот", "механизация"]),
   ("vr_ar",
    ["virtual reality", "виртуальная реальность", "augmented reality",
     "дополненная реальность", "mixed reality", "смешанная реальность",
     "иммерсивные технологии"]),
   ("интернет_вещей",
    ["iot", "internet of things", "интернет вещей", "smart home", "умный дом",
     "connected devices", "подключенные устройства", "сенсоры", "датчики",
     "автоматизация", "m2m", "machine-to-machine"]),
   ("связь_и_5g",
    ["5g", "5джи", "network", "connectivity", "wireless", "мобильная связь",
     "сеть пятого поколения", "высокоскоростной интернет", "беспроводные технологии",
     "телекоммуникации", "спектр частот", "low latency"]),
   ("биотехнологии",
    ["biotech", "биотехнологии", "genetic", "genome", "биоинженерия", "генная инженерия",
     "клонирование", "стволовые клетки", "биоинформатика", "секвенирование",
     "генетически модифицированный", "биомедицина"]),
   ("нанотехнологии",
    ["nanotech", "нанотехнологии", "nanoscale", "наночастицы", "наноматериалы",
     "нанороботы", "наноэлектроника", "нанотрубки", "наноструктуры", "квантовые точки",
     "нанолитография", "наномедицина"]),
   ("зеленые_технологии",
    ["green tech", "зеленые технологии", "pollution", "renewable",
     "возобновляемые источники", "sustainability", "устойчивое развитие", "эко",
     "чистая энергия", "экологичный", "переработка", "энергоэффективность",
     "carbon footprint"]),
   ("космос",
    ["space", "космос", "спутник", "марс", "луна", "астрономия", "космонавтика",
     "ракета", "орбита", "галактика", "космический корабль", "телескоп"]),
   ("стартапы",
    ["startup", "стартап", "venture", "венчурный", "entrepreneur", "предприниматель",
     "инновационный бизнес", "масштабирование", "акселератор", "инкубатор",
     "единорог", "питч"]),
   ("инвестиции",
    ["investment", "инвестиции", "funding", "финансирование", "venture capital",
     "венчурный капитал", "angel investor", "бизнес-ангел", "crowdfunding",
     "краудфандинг", "ipo", "первичное размещение"]),
   ("патенты",
    ["patent", "патент", "intellectual property", "интеллектуальная собственность",
     "invention", "изобретение", "trademark", "торговая марка", "copyright",
     "авторское право", "лицензирование", "патентование"]),
   ("научные_публикации",
    ["research paper", "научная статья", "journal", "научный журнал",
     "scientific article", "научная публикация", "peer review", "рецензирование",
     "citation", "цитирование", "impact factor", "индекс цитирования"]),
   ("энергетика",
    ["energy", "энергетика", "power", "электроэнергия", "electricity", "электричество",
     "nuclear", "ядерная энергия", "solar", "солнечная энергия", "wind power",
     "ветроэнергетика"]),
   ("медицина",
    ["medicine", "медицина", "health", "здравоохранение", "symptom", "pharmaceutical",
     "фармацевтика", "therapy", "терапия", "diagnosis", "диагностика", "vaccine",
     "вакцина", "clinical trial", "клинические испытания"]),
   ("транспорт",
    ["transport", "транспорт", "бензиновый мотор", "vehicle", "транспортное средство",
     "autonomous", "беспилотный", "electric car", "электромобиль", "hyperloop",
     "гиперлуп", "smart city", "умный город", "logistics", "логистика"]),
   ("образование",
    ["education", "образование", "learning", "обучение", "school", "школа",
     "university", "университет", "e-learning", "дистанционное обучение", "mooc",
     "онлайн-курсы", "edtech", "образовательные технологии"]),
   ("финтех",
    ["fintech", "финтех", "banking", "банкинг", "payment", "платежи",
     "financial technology", "финансовые технологии", "digital wallet",
     "электронный кошелек", "mobile banking", "мобильный банкинг", "insurtech",
     "страховые технологии"]),
   ("криптовалюты",
    ["crypto", "крипто", "bitcoin", "биткоин", "ethereum", "эфириум", "blockchain",
     "блокчейн", "mining", "майнинг", "wallet", "кошелек", "exchange", "биржа",
     "token", "токен"]),
   ("геймификация",
    ["gamification", "геймификация", "serious games", "обучающие игры", "игрофикация",
     "game-based learning", "игровое обучение", "simulation", "симуляция",
     "virtual world", "виртуальный мир", "game mechanics", "игровые механики"]),
   ("мобильные_устройства",
    ["smartphone", "смартфон", "tablet", "планшет", "smartwatch", "умные часы",
     "wearable", "носимые устройства", "mobile device", "мобильное устройство",
     "app", "приложение", "mobile os", "мобильная ос", "iphone", "samsung galaxy",
     "AirPods"])].map (fun p => (p.1.data, p.2.map (fun s => s.data)))

/-! ## Scorer (`article_processor.py`) -/

/-- The blocked-term test of `categorize_article` (line 119):
`any(word.lower() in content for word in BLACKLIST_KEYWORDS)` on the
lowercased content. -/
def hasBlacklistedTerm (content : Text) : Bool :=
  BLACKLIST_KEYWORDS.any (fun w => pyIn (lower w) (lower content))

/-- Python `max(scores, key=scores.get)` over a dict in insertion order:
first key attaining the maximal value. -/
def pyMaxByVal : List (Text × ℕ) → Text
  | [] => []
  | p :: ps => (ps.foldl (fun best q => if best.2 < q.2 then q else best) p).1

/-- `categorize_article(content)`: blocked terms veto to `none`; otherwise
count keyword occurrences per category and take the first category with the
highest count, `none` when all counts are zero (Python returns `None`). -/
def categorize_article (content : Text) : Option Text :=
  if hasBlacklistedTerm content then none
  else
    let lcontent := lower content
    let scores := category_keywords.map
      (fun ck => (ck.1, ck.2.foldl (fun n kw => n + countOcc (lower kw) lcontent) 0))
    if scores.all (fun p => p.2 == 0) then none
    else some (pyMaxByVal scores)

/-- Inputs to scoring that come from external collaborators: the sentiment
analyzer compound score, today's event keyword lists
(`get_today_events`, each `event[3].split(',')`), and the article age
`(datetime.now() - article.pub_date).days`. -/
structure ScoreContext where
  sentiment : ℚ
  todayEvents : List (List Text)
  ageDays : ℤ
deriving DecidableEq

/-- The `score += 0.5` loop over today's events (lines 163-167), as a fold
starting from zero. -/
def event_bonus (todayEvents : List (List Text)) (content : Text) : ℚ :=
  todayEvents.foldl
    (fun b kws => if kws.any (fun k => pyIn (lower k) (lower content)) then b + 1/2 else b) 0

/-- Lines 151-156: start from the category weight; a non-priority category
is dampened by the fixed factor `0.1`. -/
def base_weight (isPrio : Bool) (category : Text) : ℚ :=
  if isPrio then weightOf category else weightOf category * (1/10)

/-- Lines 169-174: recency bonus tiered by `time_diff.days`. -/
def recency_bonus (ageDays : ℤ) : ℚ :=
  if ageDays = 0 then 3/10 else if ageDays ≤ 2 then 1/10 else 0

/-- Lines 176-178: bonus when the source contains a priority source. -/
def source_bonus (source : Text) : ℚ :=
  if PRIORITY_SOURCES.any (fun s => pyIn s source) then 1/5 else 0

/-- Lines 180-185: bonus tiered by combined content length. -/
def length_bonus (content : Text) : ℚ :=
  if 1000 < content.length then 1/5 else if 500 < content.length then 1/10 else 0

/-- Lines 187-190: bonus when an importance keyword occurs in the lowered
content. -/
def importance_bonus (content : Text) : ℚ :=
  if importance_keywords.any (fun k => pyIn k (lower content)) then 3/10 else 0

/-- Body of `calculate_interest_score` after a category has been assigned,
with the priority-membership test abstracted into `isPrio` (the code passes
`category ∈ PRIORITY_CATEGORIES`; `true` gives the score the item would
receive were its category in the priority set, other signals identical). -/
def calculate_interest_score_base (isPrio : Bool) (category : Text) (ctx : ScoreContext)
    (source title summary : Text) : ℚ :=
  base_weight isPrio category
    + ctx.sentiment * (1/10)
    + event_bonus ctx.todayEvents (title ++ ' ' :: summary)
    + recency_bonus ctx.ageDays
    + source_bonus source
    + length_bonus (title ++ ' ' :: summary)
    + importance_bonus (title ++ ' ' :: summary)

/-- `calculate_interest_score(article, title, summary)`: zero when the
content is vetoed or matches no category, otherwise the weighted base plus
the additive adjustments. -/
def calculate_interest_score (ctx : ScoreContext) (source title summary : Text) : ℚ :=
  match categorize_article (title ++ ' ' :: summary) with
  | none => 0
  | some category =>
    calculate_interest_score_base (decide (category ∈ PRIORITY_CATEGORIES)) category ctx
      source title summary

/-- `is_breaking_news(article, title, summary)`: a breaking keyword in the
lowercased text, or a priority source. -/
def is_breaking_news (source title summary : Text) : Bool :=
  BREAKING_NEWS_KEYWORDS.any (fun k => pyIn (lower k) (lower (title ++ ' ' :: summary)))
  || PRIORITY_SOURCES.any (fun s => pyIn s source)

/-! ## Articles and per-article processing -/

/-- A fetched candidate item (`rss_parser.parse_entry` result). `pub_date`
is opaque here; the scorer consumes its age through `ScoreContext.ageDays`. -/
structure Article (ι : Type) where
  id : ι
  title : Text
  summary : Text
  link : Text
  pub_date : ℤ
  source : Text
deriving DecidableEq

/-- A processed article (the dict built by `process_single_article`). -/
structure Processed (ι : Type) where
  id : ι
  title : Text
  summary : Text
  link : Text
  pub_date : ℤ
  source : Text
  category : Option Text
  interest_score : ℚ
  is_breaking : Bool
deriving DecidableEq

/-- `process_single_article(article)`; `tr` is the external translation
service (`translate_text`, which on failure returns its input). -/
def process_single_article {ι : Type} (tr : Text → Text) (ctx : ScoreContext)
    (a : Article ι) : Processed ι :=
  let title := tr (clean_html a.title)
  let summary := truncate_summary (tr (clean_html a.summary)) SUMMARY_LENGTH
  { id := a.id
    title := title
    summary := summary
    link := a.link
    pub_date := a.pub_date
    source := a.source
    category := categorize_article (title ++ ' ' :: summary)
    interest_score := calculate_interest_score ctx a.source title summary
    is_breaking := is_breaking_news a.source title summary }

/-- `process_articles`: per-article processing over a batch (the per-item
`try/except` isolation only matters for collaborator failures, which the
embedding's total functions do not produce). `pc` supplies each article's
external signals. -/
def process_articles {ι : Type} (tr : Text → Text) (pc : Article ι → ScoreContext)
    (articles : List (Article ι)) : List (Processed ι) :=
  articles.map (fun a => process_single_article tr (pc a) a)

/-- The orchestrator's interest filter (`bot.py` lines 124-125):
`interest_score >= MIN_INTEREST_SCORE`. -/
def filter_interesting {ι : Type} (articles : List (Processed ι)) : List (Processed ι) :=
  articles.filter (fun a => decide (MIN_INTEREST_SCORE ≤ a.interest_score))

/-! ## Selector (`article_processor.select_interesting_articles`) -/

/-- Stable descending insertion: `a` goes after every earlier element with a
strictly greater score and after earlier-listed equal scores. -/
def insertDesc {ι : Type} (a : Processed ι) : List (Processed ι) → List (Processed ι)
  | [] => [a]
  | b :: bs => if a.interest_score < b.interest_score then b :: insertDesc a bs else a :: b :: bs

/-- Python `sorted(articles, key=lambda x: x['interest_score'], reverse=True)`:
a stable descending sort (insertion sort is extensionally the same as
CPython's stable sort). -/
def sort_by_score_desc {ι : Type} : List (Processed ι) → List (Processed ι)
  | [] => []
  | a :: as' => insertDesc a (sort_by_score_desc as')

/-- `int(num_to_select * TOP_ARTICLES_PERCENTAGE)`: CPython truncates the
float product toward zero; on naturals this is `(n * 7) / 10` (exact rational
arithmetic agrees with the binary-float product at these magnitudes). -/
def top_count (num_to_select : ℕ) : ℕ := num_to_select * 7 / 10

/-- `select_interesting_articles(articles, num_to_select=5)`. The call
`random.sample(population, k)` is abstracted into the oracle `sample`
(any function returning `k` of the given items without replacement). -/
def select_interesting_articles {ι : Type} [DecidableEq ι]
    (sample : List (Processed ι) → ℕ → List (Processed ι))
    (articles : List (Processed ι)) (num_to_select : ℕ) : List (Processed ι) :=
  let sorted_articles := sort_by_score_desc articles
  let selected := sorted_articles.take (top_count num_to_select)
  let other_articles := sorted_articles.filter (fun a => ! selected.contains a)
  let diversity_count := num_to_select - top_count num_to_select
  if other_articles.isEmpty then selected
  else selected ++ sample other_articles (min other_articles.length diversity_count)

/-- The spec's own formula for the quality-set size:
`ceil(target_count * TOP_FRACTION)`. -/
def top_count_spec (num_to_select : ℕ) : ℕ :=
  ⌈(num_to_select : ℚ) * TOP_ARTICLES_PERCENTAGE⌉.toNat

/-! ## Deduplicator / ledger (`database.py`) -/

/-- A row of the `articles` table (`id TEXT PRIMARY KEY, title, pub_date`);
`pub_date` is a second count here. -/
structure LedgerEntry (ι : Type) where
  id : ι
  title : Text
  pub_date : ℕ
deriving DecidableEq

abbrev Ledger (ι : Type) := List (LedgerEntry ι)

/-- `is_article_published`: `SELECT * FROM articles WHERE id=?` is nonempty. -/
def is_article_published {ι : Type} [DecidableEq ι] (L : Ledger ι) (i : ι) : Bool :=
  L.any (fun e => decide (e.id = i))

/-- `add_published_article`: `INSERT OR REPLACE INTO articles` keyed by the
primary key `id` — the conflicting row is replaced. -/
def add_published_article {ι : Type} [DecidableEq ι] (L : Ledger ι) (i : ι)
    (t : Text) (d : ℕ) : Ledger ι :=
  ⟨i, t, d⟩ :: L.filter (fun e => decide (¬ e.id = i))

/-- Number of ledger rows carrying identifier `i`. -/
def countId {ι : Type} [DecidableEq ι] (L : Ledger ι) (i : ι) : ℕ :=
  (L.filter (fun e => decide (e.id = i))).length

/-! ## Fetching (`rss_parser.py`) -/

/-- `fetch_feed(feed_url)`: parse up to `ARTICLES_PER_FEED` entries (the
results of `parse_entry`, possibly `None`, are inputs here since parsing
consumes external feed data) and keep the valid ones not already in the
ledger — the upstream deduplication filter (line 52). -/
def fetch_feed {ι : Type} [DecidableEq ι] (L : Ledger ι)
    (parsed : List (Option (Article ι))) : List (Article ι) :=
  ((parsed.take ARTICLES_PER_FEED).filterMap id).filter
    (fun a => ! is_article_published L a.id)

/-- `fetch_articles()`: concatenate the per-feed results. -/
def fetch_articles {ι : Type} [DecidableEq ι] (L : Ledger ι)
    (feeds : List (List (Option (Article ι)))) : List (Article ι) :=
  (feeds.map (fetch_feed L)).flatten

/-! ## The publication loop (`bot.py` lines 134-163) -/

/-- One iteration's external inputs: the article, the real time elapsing
before the iteration reads the clock, and whether `publish_to_telegram`
returns a message id (`delivered = false` covers delivery failure and the
caught exception path). -/
structure CycleItem (ι : Type) where
  article : Processed ι
  delay : ℕ
  delivered : Bool

/-- A granted publication: `recorded` is `current_time` (read before the
wait; stored in the ledger and in `last_publication_time`), `actual` is the
real time at which delivery happens, i.e. after any `time.sleep`. -/
structure PubEvent (ι : Type) where
  id : ι
  recorded : ℕ
  actual : ℕ
deriving DecidableEq

/-- Lines 143-149: the spacing wait. If the elapsed time since
`last_publication_time` is under `MIN_PUBLICATION_INTERVAL` minutes, sleep
until `last_publication_time + MIN_PUBLICATION_INTERVAL`. -/
def waitedClock (current : ℕ) (lastPub : Option ℕ) : ℕ :=
  match lastPub with
  | some lp =>
    if current - lp < MIN_PUBLICATION_INTERVAL * 60 then lp + MIN_PUBLICATION_INTERVAL * 60
    else current
  | none => current

/-- The `for article in interesting_articles` loop of `process_and_publish`:
`count` is the local `published_count`, `lastPub` the local
`last_publication_time` (both initialised afresh at every invocation,
lines 134-135). Returns the granted publications, the final clock, and the
final ledger. -/
def publishLoop {ι : Type} [DecidableEq ι] :
    List (CycleItem ι) → ℕ → Option ℕ → ℕ → Ledger ι →
      List (PubEvent ι) × ℕ × Ledger ι
  | [], clock, _, _, ledger => ([], clock, ledger)
  | it :: rest, clock, lastPub, count, ledger =>
    if MAX_PUBLICATIONS_PER_HOUR ≤ count then ([], clock, ledger)
    else
      let current := clock + it.delay
      let slept := waitedClock current lastPub
      if is_article_published ledger it.article.id = false ∧ it.delivered = true then
        let r := publishLoop rest slept (some current) (count + 1)
          (add_published_article ledger it.article.id it.article.title current)
        (⟨it.article.id, current, slept⟩ :: r.1, r.2)
      else
        publishLoop rest slept lastPub count ledger

/-! ## Pause / resume (`bot.py` lines 103-110 and 169-182) -/

/-- The pause-related state of `NewsBot`: `pause_until` and the scheduled
fire time of the `threading.Timer` auto-resume (both second counts). -/
structure BotPauseState where
  pause_until : Option ℕ
  pause_timer : Option ℕ
deriving DecidableEq

/-- `pause_publications(hours)`: set `pause_until`, cancel any prior timer,
schedule a resume after `hours * 3600` seconds. -/
def pause_publications (now hours : ℕ) : BotPauseState → BotPauseState := fun _ =>
  { pause_until := some (now + hours * 3600)
    pause_timer := some (now + hours * 3600) }

/-- `resume_publications()`: clear `pause_until` and cancel the timer (the
timer itself calls this function when it fires). -/
def resume_publications : BotPauseState → BotPauseState := fun _ =>
  { pause_until := none, pause_timer := none }

/-- `is_paused()`: `pause_until and now < pause_until`. -/
def is_paused (st : BotPauseState) (now : ℕ) : Bool :=
  match st.pause_until with
  | some u => decide (now < u)
  | none => false

/-- `run_scheduled_job()`: returns whether `process_and_publish` runs (the
cycle is skipped while paused). -/
def run_scheduled_job (st : BotPauseState) (now : ℕ) : Bool :=
  ! is_paused st now

/-! ## Cadence (`bot.py` lines 57-65) -/

/-- `min(self.optimal_publishing_hours, key=lambda x: abs(x - current_hour))`:
the first listed hour at minimal absolute distance (Python `min` keeps the
first minimiser; an empty profile raises, modelled by the default `0` and
excluded by the theorems' nonemptiness hypothesis). -/
def closest_optimal (hours : List ℕ) (current_hour : ℕ) : ℕ :=
  match hours with
  | [] => 0
  | x :: xs =>
    xs.foldl (fun best y => if Nat.dist y current_hour < Nat.dist best current_hour then y else best) x

/-- `should_publish_now()`, with the current hour and the `random.random()`
draw as inputs: `true` inside the optimal-hour set, otherwise `true` exactly
when the draw is below `max(0.2 - 0.01 * distance, 0.05)`. -/
def should_publish_now (hours : List ℕ) (current_hour : ℕ) (draw : ℚ) : Bool :=
  if current_hour ∈ hours then true
  else
    decide (draw < max ((2/10 : ℚ) - (Nat.dist (closest_optimal hours current_hour) current_hour : ℚ) * (1/100)) (5/100))

/-- The minimal distance from `current_hour` to an hour of the profile (the
spec's `hour_distance_to_nearest_good_hour`), as realised by the code's
first-minimiser. -/
def minDistToGoodHour (hours : List ℕ) (current_hour : ℕ) : ℕ :=
  Nat.dist (closest_optimal hours current_hour) current_hour

/-! ## Concrete instances used by witnesses and counterexamples -/

/-- External signals for the concrete examples: neutral sentiment, no events
today, published today. -/
def C4ctx : ScoreContext := ⟨0, [], 0⟩

/-- A vetoed yet breaking candidate: the title carries the blocked term
`"скидка"` and the breaking keyword `"Breaking"`, the source is a priority
source. -/
def C10article : Article ℕ :=
  { id := 7
    title := "Breaking: скидка на новый AI".data
    summary := "".data
    link := "l".data
    pub_date := 0
    source := "techcrunch.com".data }

/-- A scored article record with the given id and score (all text fields
empty; the selector and the publication loop only read id, title and
score). -/
def mkScored (n : ℕ) (q : ℚ) : Processed ℕ :=
  { id := n, title := [], summary := [], link := [], pub_date := 0, source := [],
    category := none, interest_score := q, is_breaking := false }

/-- A deterministic resolution of `random.sample`: the first `k` items. -/
def sampleTake (xs : List (Processed ℕ)) (k : ℕ) : List (Processed ℕ) := xs.take k

/-- Another admissible resolution of `random.sample`: the last `k` items. -/
def sampleDrop (xs : List (Processed ℕ)) (k : ℕ) : List (Processed ℕ) :=
  xs.drop (xs.length - k)

/-- Six scored candidates with descending scores 6..1. -/
def C5articles : List (Processed ℕ) :=
  [mkScored 1 6, mkScored 2 5, mkScored 3 4, mkScored 4 3, mkScored 5 2, mkScored 6 1]

/-- A loop iteration: fresh unpublished article `n`, `d` seconds elapsing
before the clock read, successful delivery. -/
def mkItem (n d : ℕ) : CycleItem ℕ :=
  { article := mkScored n 2, delay := d, delivered := true }

/-- Three-article cycle: the second iteration starts one second after the
first publication, the third immediately after the second. -/
def C1items : List (CycleItem ℕ) := [mkItem 101 0, mkItem 102 1, mkItem 103 0]

def C1run1 : List (PubEvent ℕ) × ℕ × Ledger ℕ := publishLoop C1items 0 none 0 []

/-- The next cycle, entered immediately, with a fresh article: the loop's
`last_publication_time` restarts at `None`. -/
def C1run2 : List (PubEvent ℕ) × ℕ × Ledger ℕ :=
  publishLoop [mkItem 104 0] C1run1.2.1 none 0 C1run1.2.2

/-- Twenty fresh articles delivered back-to-back in one cycle. -/
def C2items : List (CycleItem ℕ) := (List.range 20).map (fun n => mkItem n 0)

def C2run1 : List (PubEvent ℕ) × ℕ × Ledger ℕ := publishLoop C2items 0 none 0 []

/-- The following cycle with a 21st fresh article; its `published_count`
restarts at zero. -/
def C2run2 : List (PubEvent ℕ) × ℕ × Ledger ℕ :=
  publishLoop [mkItem 20 0] C2run1.2.1 none 0 C2run1.2.2

/-- The spacing relation the spec asserts between consecutive grants, in the
form the code actually guarantees: the later grant happens (post-wait) at
least `MIN_PUBLICATION_INTERVAL` minutes after the earlier grant's recorded
timestamp. -/
def Rspace (a b : PubEvent ℕ) : Prop :=
  a.recorded + MIN_PUBLICATION_INTERVAL * 60 ≤ b.actual

/-! ## Helper lemmas -/

theorem categorize_eq_none_of_blacklist {content : Text}
    (h : hasBlacklistedTerm content = true) : categorize_article content = none := by
  rw [categorize_article, if_pos h]

theorem score_eq_zero_of_blacklist (ctx : ScoreContext) (source : Text) {title summary : Text}
    (h : hasBlacklistedTerm (title ++ ' ' :: summary) = true) :
    calculate_interest_score ctx source title summary = 0 := by
  rw [calculate_interest_score, categorize_eq_none_of_blacklist h]

theorem countId_add_self (L : Ledger ℕ) (i : ℕ) (t : Text) (d : ℕ) :
    countId (add_published_article L i t d) i = 1 := by
  simp [countId, add_published_article, List.filter_filter]

theorem countId_add_le (L : Ledger ℕ) (i j : ℕ) (t : Text) (d : ℕ)
    (hL : countId L j ≤ 1) : countId (add_published_article L i t d) j ≤ 1 := by
  by_cases hij : i = j
  · subst hij
    rw [countId_add_self]
  · have hsub : List.Sublist
        ((add_published_article L i t d).filter (fun e => decide (e.id = j)))
        (L.filter (fun e => decide (e.id = j))) := by
      rw [add_published_article, List.filter_cons_of_neg (by simp [hij])]
      exact (List.filter_sublist L).filter _
    exact le_trans hsub.length_le hL

/-! ## C3: blocked terms are a hard veto -/

/-- C3 (confirmed): if any blocked term occurs as a case-insensitive
substring of the combined title+summary text, the assigned category is
`none` and the interest score is `0`, for every value of all other signals
(sentiment, events, age, source). -/
theorem C3_blacklist_veto (title summary : Text) (ctx : ScoreContext) (source : Text)
    (h : hasBlacklistedTerm (title ++ ' ' :: summary) = true) :
    categorize_article (title ++ ' ' :: summary) = none
    ∧ calculate_interest_score ctx source title summary = 0 :=
  ⟨categorize_eq_none_of_blacklist h, score_eq_zero_of_blacklist ctx source h⟩

/-- C3 witness: a blacklisted text (`"распродажа"` is a blocked term) with
arbitrary other signals is vetoed. -/
theorem C3_blacklist_veto_witness :
    categorize_article (("Большая распродажа".data) ++ ' ' :: ("".data)) = none
    ∧ calculate_interest_score ⟨1/2, [["техно".data]], 0⟩ ("techcrunch.com".data)
        ("Большая распродажа".data) ("".data) = 0 :=
  C3_blacklist_veto ("Большая распродажа".data) ("".data) ⟨1/2, [["техно".data]], 0⟩
    ("techcrunch.com".data) (by decide)

/-! ## C7: pause and resume -/

/-- C7 (confirmed): after `pause_publications(hours)` every scheduled cycle
is skipped exactly while `now < pause-start + hours`, so after the pause
expires publishing resumes without a manual resume; `resume_publications`
(also invoked by the auto-resume timer when it fires) clears the pause
immediately; and a new pause replaces whatever auto-resume timer was
pending. -/
theorem C7_pause_resume (st st' : BotPauseState) (now hours t : ℕ) :
    (is_paused (pause_publications now hours st) t = decide (t < now + hours * 3600))
    ∧ (is_paused (resume_publications st') t = false)
    ∧ ((pause_publications now hours st).pause_timer = some (now + hours * 3600))
    ∧ (run_scheduled_job (pause_publications now hours st) t = true ↔ now + hours * 3600 ≤ t) := by
  refine ⟨rfl, rfl, rfl, ?_⟩
  simp [run_scheduled_job, is_paused, pause_publications]

/-- C7 witness: a 2-hour pause issued at time 100 blocks the cycle at time
101, allows it at time 100 + 7200, and has replaced a previously pending
timer. -/
theorem C7_pause_resume_witness :
    (is_paused (pause_publications 100 2 ⟨some 5, some 5⟩) 101 = decide (101 < 100 + 2 * 3600))
    ∧ (is_paused (resume_publications ⟨some 5, some 5⟩) 101 = false)
    ∧ ((pause_publications 100 2 ⟨some 5, some 5⟩).pause_timer = some (100 + 2 * 3600))
    ∧ (run_scheduled_job (pause_publications 100 2 ⟨some 5, some 5⟩) 101 = true
        ↔ 100 + 2 * 3600 ≤ 101) :=
  C7_pause_resume ⟨some 5, some 5⟩ ⟨some 5, some 5⟩ 100 2 101

/-! ## C8: the ledger is an idempotent upsert -/

/-- C8 (confirmed): recording `i` makes `is_article_published i` true
immediately; after recording, `i` occupies exactly one row; re-recording the
same id replaces the row instead of adding one (`INSERT OR REPLACE` on the
primary key), so recording twice equals recording once; and recording
preserves the at-most-one-row-per-id invariant for every id. -/
theorem C8_record_idempotent_upsert (L : Ledger ℕ) (i : ℕ) (t : Text) (d : ℕ)
    (t' : Text) (d' : ℕ) (j : ℕ) :
    is_article_published (add_published_article L i t d) i = true
    ∧ countId (add_published_article L i t d) i = 1
    ∧ add_published_article (add_published_article L i t d) i t' d'
        = add_published_article L i t' d'
    ∧ (countId L j ≤ 1 → countId (add_published_article L i t d) j ≤ 1) := by
  refine ⟨?_, countId_add_self L i t d, ?_, countId_add_le L i j t d⟩
  · simp [is_article_published, add_published_article]
  · simp [add_published_article, List.filter_filter]

/-- C8 witness: recording id 1 twice in an initially two-row ledger leaves a
single row for id 1, visible to `is_article_published`. -/
theorem C8_record_idempotent_upsert_witness :
    is_article_published
      (add_published_article [⟨2, [], 0⟩] 1 ("a".data) 10) 1 = true
    ∧ countId (add_published_article [⟨2, [], 0⟩] 1 ("a".data) 10) 1 = 1
    ∧ add_published_article (add_published_article [⟨2, [], 0⟩] 1 ("a".data) 10) 1 ("b".data) 20
        = add_published_article [⟨2, [], 0⟩] 1 ("b".data) 20
    ∧ countId (add_published_article [⟨2, [], 0⟩] 1 ("a".data) 10) 2 ≤ 1 := by
  have h := C8_record_idempotent_upsert [⟨2, [], 0⟩] 1 ("a".data) 10 ("b".data) 20 2
  exact ⟨h.1, h.2.1, h.2.2.1, h.2.2.2 (by decide)⟩

/-! ## C9: cadence decision -/

theorem foldl_closest_mem (current : ℕ) :
    ∀ (xs : List ℕ) (x : ℕ),
      xs.foldl (fun best c => if Nat.dist c current < Nat.dist best current then c else best) x
        ∈ x :: xs := by
  intro xs
  induction xs with
  | nil => intro x; simp
  | cons z zs ih =>
    intro x
    rw [List.foldl_cons]
    by_cases hzx : Nat.dist z current < Nat.dist x current
    · rw [if_pos hzx]
      rcases List.mem_cons.mp (ih z) with h | h
      · rw [h]
        exact List.mem_cons_of_mem x (List.mem_cons_self z zs)
      · exact List.mem_cons_of_mem x (List.mem_cons_of_mem z h)
    · rw [if_neg hzx]
      rcases List.mem_cons.mp (ih x) with h | h
      · rw [h]
        exact List.mem_cons_self x (z :: zs)
      · exact List.mem_cons_of_mem x (List.mem_cons_of_mem z h)

theorem foldl_closest_le (current : ℕ) :
    ∀ (xs : List ℕ) (x y : ℕ), y ∈ x :: xs →
      Nat.dist
          (xs.foldl (fun best c => if Nat.dist c current < Nat.dist best current then c else best) x)
          current
        ≤ Nat.dist y current := by
  intro xs
  induction xs with
  | nil =>
    intro x y hy
    simp only [List.mem_singleton] at hy
    subst hy
    exact le_refl _
  | cons z zs ih =>
    intro x y hy
    rw [List.foldl_cons]
    by_cases hzx : Nat.dist z current < Nat.dist x current
    · rw [if_pos hzx]
      rcases List.mem_cons.mp hy with h | h'
      · rw [h]
        exact le_trans (ih z z (List.mem_cons_self z zs)) (le_of_lt hzx)
      · exact ih z y h'
    · rw [if_neg hzx]
      rcases List.mem_cons.mp hy with h | h'
      · rw [h]
        exact ih x x (List.mem_cons_self x zs)
      · rcases List.mem_cons.mp h' with h2 | h2
        · rw [h2]
          exact le_trans (ih x x (List.mem_cons_self x zs)) (Nat.le_of_not_lt hzx)
        · exact ih x y (List.mem_cons_of_mem x h2)

/-- C9 (confirmed): for a nonempty cadence profile, `should_publish_now` is
true when the current hour is in the profile, and otherwise true exactly
when the random draw is below `max(0.2 - 0.01 * d, 0.05)`, where
`d = minDistToGoodHour` is certified below to be the distance to the
nearest good hour (it is a lower bound of all distances and is attained). -/
theorem C9_cadence (hours : List ℕ) (current_hour : ℕ) (hne : hours ≠ []) :
    (∀ draw : ℚ, should_publish_now hours current_hour draw
      = (decide (current_hour ∈ hours)
          || decide (draw < max ((2/10 : ℚ) - (minDistToGoodHour hours current_hour : ℚ) * (1/100))
              (5/100))))
    ∧ (∀ x ∈ hours, minDistToGoodHour hours current_hour ≤ Nat.dist x current_hour)
    ∧ (∃ x ∈ hours, Nat.dist x current_hour = minDistToGoodHour hours current_hour) := by
  match hours with
  | [] => exact absurd rfl hne
  | x :: xs =>
    refine ⟨?_, ?_, ?_⟩
    · intro draw
      by_cases hmem : current_hour ∈ x :: xs
      · simp [should_publish_now, hmem]
      · simp [should_publish_now, hmem, minDistToGoodHour]
    · intro y hy
      exact foldl_closest_le current_hour xs x y hy
    · exact ⟨_, foldl_closest_mem current_hour xs x, rfl⟩

/-- C9 witness: the default profile at hour 3 with draw `0.1`: the nearest
good hour is 9, the distance 6, the threshold `0.2 - 0.06 = 0.14`, and the
draw is below it. -/
theorem C9_cadence_witness :
    should_publish_now [9, 12, 15, 18, 21] 3 (1/10)
      = (decide ((3 : ℕ) ∈ [9, 12, 15, 18, 21])
          || decide ((1/10 : ℚ) < max ((2/10 : ℚ) - (minDistToGoodHour [9, 12, 15, 18, 21] 3 : ℚ) * (1/100))
              (5/100))) :=
  (C9_cadence [9, 12, 15, 18, 21] 3 (by decide)).1 (1/10)

/-! ## C10: processing is total and the breaking flag is score-independent -/

/-- C10 (confirmed): `process_single_article` always returns the complete
record built from its input (never `None`); in particular a blocked-term
article is still returned, with category `none` and score `0`, its
`is_breaking` flag still computed from the breaking keywords and the source
(independently of the score), and such an article is dropped only later by
the orchestrator's `MIN_INTEREST_SCORE` filter. -/
theorem C10_process_total (tr : Text → Text) (ctx : ScoreContext) (a : Article ℕ) :
    (process_single_article tr ctx a =
      { id := a.id
        title := tr (clean_html a.title)
        summary := truncate_summary (tr (clean_html a.summary)) SUMMARY_LENGTH
        link := a.link
        pub_date := a.pub_date
        source := a.source
        category := categorize_article
          (tr (clean_html a.title) ++ ' ' :: truncate_summary (tr (clean_html a.summary)) SUMMARY_LENGTH)
        interest_score := calculate_interest_score ctx a.source (tr (clean_html a.title))
          (truncate_summary (tr (clean_html a.summary)) SUMMARY_LENGTH)
        is_breaking := is_breaking_news a.source (tr (clean_html a.title))
          (truncate_summary (tr (clean_html a.summary)) SUMMARY_LENGTH) })
    ∧ (hasBlacklistedTerm
          (tr (clean_html a.title) ++ ' ' :: truncate_summary (tr (clean_html a.summary)) SUMMARY_LENGTH)
            = true →
        (process_single_article tr ctx a).category = none
        ∧ (process_single_article tr ctx a).interest_score = 0
        ∧ filter_interesting [process_single_article tr ctx a] = []) := by
  refine ⟨rfl, fun hbl => ?_⟩
  have h1 := categorize_eq_none_of_blacklist hbl
  have h2 := score_eq_zero_of_blacklist ctx a.source hbl
  have h3 : decide (MIN_INTEREST_SCORE ≤ (0 : ℚ)) = false :=
    decide_eq_false (by norm_num [MIN_INTEREST_SCORE])
  refine ⟨h1, h2, ?_⟩
  simp [filter_interesting, process_single_article, h2, h3]

/-- C10 witness: a vetoed article (blocked term `"скидка"`) from a priority
source whose title also contains a breaking keyword: the returned record has
score `0` and category `none`, yet `is_breaking = true`, and the record is
removed by the interest filter. -/
theorem C10_process_total_witness :
    (process_single_article id ⟨0, [], 0⟩ C10article).category = none
    ∧ (process_single_article id ⟨0, [], 0⟩ C10article).interest_score = 0
    ∧ filter_interesting [process_single_article id ⟨0, [], 0⟩ C10article] = []
    ∧ (process_single_article id ⟨0, [], 0⟩ C10article).is_breaking = true := by
  have h := (C10_process_total id ⟨0, [], 0⟩ C10article).2 (by decide)
  exact ⟨h.1, h.2.1, h.2.2, by decide⟩

/-! ## C4: the dampening applies to the base weight only -/

/-- C4 counterexample: the text `"технология"` on a fresh article is
categorised `"технологии"` (weight 2.0, not a priority category). Its score
is `0.2 + 0.3 = 0.5` (dampened weight plus the same-day bonus), while the
identical item in a priority category would score `2.0 + 0.3 = 2.3`; since
`0.5 > 0.23 = 0.1 * 2.3`, the claimed bound `score ≤ 0.1 * priority-score`
fails: the factor 0.1 dampens only the category-weight term, the additive
bonuses escape it. -/
theorem C4_counterexample :
    categorize_article (("технология".data) ++ ' ' :: ("".data)) = some ("технологии".data)
    ∧ ("технологии".data) ∉ PRIORITY_CATEGORIES
    ∧ ¬ (calculate_interest_score C4ctx ("example.com".data) ("технология".data) ("".data)
          ≤ (1/10) * calculate_interest_score_base true ("технологии".data) C4ctx
              ("example.com".data) ("технология".data) ("".data)) := by
  have hcat : categorize_article (("технология".data) ++ ' ' :: ("".data))
      = some ("технологии".data) := by decide
  have hmem : ("технологии".data) ∉ PRIORITY_CATEGORIES := by decide
  refine ⟨hcat, hmem, ?_⟩
  have hs : calculate_interest_score C4ctx ("example.com".data) ("технология".data) ("".data)
      = calculate_interest_score_base false ("технологии".data) C4ctx
          ("example.com".data) ("технология".data) ("".data) := by
    unfold calculate_interest_score
    rw [hcat]
    show calculate_interest_score_base (decide (("технологии".data) ∈ PRIORITY_CATEGORIES))
        ("технологии".data) C4ctx ("example.com".data) ("технология".data) ("".data)
      = calculate_interest_score_base false ("технологии".data) C4ctx
          ("example.com".data) ("технология".data) ("".data)
    rw [decide_eq_false hmem]
  rw [hs]
  have hw : weightOf ("технологии".data) = 2 := rfl
  have hsrc : PRIORITY_SOURCES.any (fun s => pyIn s ("example.com".data)) = false := by decide
  have himp : importance_keywords.any
      (fun k => pyIn k (lower (("технология".data) ++ ' ' :: ("".data)))) = false := by decide
  have hlen : ((("технология".data) : Text) ++ ' ' :: ("".data)).length = 11 := by decide
  unfold calculate_interest_score_base base_weight event_bonus recency_bonus source_bonus
    length_bonus importance_bonus
  rw [hw, hsrc, himp, hlen]
  simp only [C4ctx, List.foldl_nil]
  norm_num

/-- C4 (corrected): for an item assigned a non-priority category, the score
equals the score the item would receive in a priority category minus nine
tenths of the category weight — only the base-weight term is dampened by
0.1; the additive signals (sentiment, events, recency, source, length,
importance) are unaffected. -/
theorem C4_dampening_amended (ctx : ScoreContext) (source title summary cat : Text)
    (hcat : categorize_article (title ++ ' ' :: summary) = some cat)
    (hp : cat ∉ PRIORITY_CATEGORIES) :
    calculate_interest_score ctx source title summary
      = calculate_interest_score_base true cat ctx source title summary
        - (9/10) * weightOf cat := by
  have heq : calculate_interest_score ctx source title summary
      = calculate_interest_score_base (decide (cat ∈ PRIORITY_CATEGORIES)) cat ctx
          source title summary := by
    unfold calculate_interest_score
    rw [hcat]
  rw [heq, decide_eq_false hp]
  unfold calculate_interest_score_base base_weight
  simp only [Bool.false_eq_true, if_false, if_true]
  ring

/-- C4 witness: the amended equation at the counterexample's input:
`0.5 = 2.3 - 0.9 * 2.0`. -/
theorem C4_dampening_amended_witness :
    calculate_interest_score C4ctx ("example.com".data) ("технология".data) ("".data)
      = calculate_interest_score_base true ("технологии".data) C4ctx
          ("example.com".data) ("технология".data) ("".data)
        - (9/10) * weightOf ("технологии".data) :=
  C4_dampening_amended C4ctx ("example.com".data) ("технология".data) ("".data)
    ("технологии".data) (by decide) (by decide)

/-! ## C1: minimum spacing between publications -/

theorem le_waitedClock (current lp : ℕ) :
    lp + MIN_PUBLICATION_INTERVAL * 60 ≤ waitedClock current (some lp) := by
  simp only [waitedClock, MIN_PUBLICATION_INTERVAL]
  split <;> omega

theorem publishLoop_chain (items : List (CycleItem ℕ)) :
    ∀ (clock : ℕ) (lastPub : Option ℕ) (count : ℕ) (ledger : Ledger ℕ),
      List.Chain' Rspace (publishLoop items clock lastPub count ledger).1
      ∧ ∀ lp e, lastPub = some lp →
          (publishLoop items clock lastPub count ledger).1.head? = some e →
          lp + MIN_PUBLICATION_INTERVAL * 60 ≤ e.actual := by
  induction items with
  | nil =>
    intro clock lastPub count ledger
    refine ⟨by simp [publishLoop], ?_⟩
    intro lp e _ he
    simp [publishLoop] at he
  | cons it rest ih =>
    intro clock lastPub count ledger
    simp only [publishLoop]
    by_cases hcap : MAX_PUBLICATIONS_PER_HOUR ≤ count
    · rw [if_pos hcap]
      exact ⟨List.chain'_nil, fun lp e _ he => by simp at he⟩
    · rw [if_neg hcap]
      by_cases hpub : is_article_published ledger it.article.id = false ∧ it.delivered = true
      · rw [if_pos hpub]
        have hrec := ih (waitedClock (clock + it.delay) lastPub) (some (clock + it.delay))
          (count + 1)
          (add_published_article ledger it.article.id it.article.title (clock + it.delay))
        constructor
        · rw [List.chain'_cons']
          refine ⟨?_, hrec.1⟩
          intro b hb
          have hb' := hrec.2 (clock + it.delay) b rfl (Option.mem_def.mp hb)
          exact hb'
        · intro lp e hlp he
          rw [List.head?_cons, Option.some_inj] at he
          rw [← he]
          subst hlp
          exact le_waitedClock (clock + it.delay) lp
      · rw [if_neg hpub]
        exact ⟨(ih _ lastPub count ledger).1, (ih _ lastPub count ledger).2⟩

/-- C1 counterexample: within one cycle the second and third grants happen
one second apart in real time (actual times 180 and 181), and their recorded
timestamps are 0, 1 and 180 — because `last_publication_time` stores the
pre-wait clock reading; the next cycle's first grant happens zero seconds
after the previous cycle's last grant, because `last_publication_time` is a
local reset to `None` at every `process_and_publish` call. So granted
publications are timestamped closer than `MIN_PUBLICATION_INTERVAL = 3`
minutes apart, both within a cycle and across the cycle boundary. -/
theorem C1_counterexample :
    (C1run1.1.map (fun e => (e.recorded, e.actual)) = [(0, 0), (1, 180), (180, 181)])
    ∧ (C1run2.1.map (fun e => (e.recorded, e.actual)) = [(181, 181)])
    ∧ 181 - 180 < MIN_PUBLICATION_INTERVAL * 60
    ∧ 181 - 181 < MIN_PUBLICATION_INTERVAL * 60 := by
  refine ⟨?_, ?_, by decide, by decide⟩ <;> decide

/-- C1 (corrected): the guarantee that does hold is per-invocation: in a
single `process_and_publish` call, each grant's real (post-wait) time is at
least `MIN_PUBLICATION_INTERVAL` minutes after the previous grant's recorded
timestamp (the loop blocks in real time until
`last_publication_time + MIN_PUBLICATION_INTERVAL`). Recorded timestamps
are pre-wait readings and may be closer together, and nothing is enforced
across cycle boundaries, where `last_publication_time` restarts at `None`. -/
theorem C1_spacing_amended (items : List (CycleItem ℕ)) (clock count : ℕ)
    (ledger : Ledger ℕ) :
    List.Chain' Rspace (publishLoop items clock none count ledger).1 :=
  (publishLoop_chain items clock none count ledger).1

/-! ## C2: the hourly ceiling -/

theorem publishLoop_length (items : List (CycleItem ℕ)) :
    ∀ (clock : ℕ) (lastPub : Option ℕ) (count : ℕ) (ledger : Ledger ℕ),
      (publishLoop items clock lastPub count ledger).1.length
        ≤ MAX_PUBLICATIONS_PER_HOUR - count := by
  induction items with
  | nil =>
    intro clock lastPub count ledger
    simp [publishLoop]
  | cons it rest ih =>
    intro clock lastPub count ledger
    simp only [publishLoop]
    by_cases hcap : MAX_PUBLICATIONS_PER_HOUR ≤ count
    · rw [if_pos hcap]
      simp
    · rw [if_neg hcap]
      by_cases hpub : is_article_published ledger it.article.id = false ∧ it.delivered = true
      · rw [if_pos hpub]
        have h := ih (waitedClock (clock + it.delay) lastPub) (some (clock + it.delay))
          (count + 1)
          (add_published_article ledger it.article.id it.article.title (clock + it.delay))
        simp only [List.length_cons]
        omega
      · rw [if_neg hpub]
        exact ih _ lastPub count ledger

/-- C2 counterexample: two back-to-back cycles produce 21 grants whose real
publication times all lie in the one-hour window `[0, 3600)` (the first
cycle's 20 grants end at second 1800; the next cycle immediately grants a
21st at second 1800, because `published_count` is a per-call local and
`get_publications_in_last_hour` is never consulted by the loop). So a
rolling one-hour window does contain more than
`MAX_PUBLICATIONS_PER_HOUR = 20` grants, and the 21st attempt was not
refused although 20 publications were already in the window. -/
theorem C2_counterexample :
    ((C2run1.1 ++ C2run2.1).filter (fun e => decide (e.actual < 3600))).length = 21
    ∧ MAX_PUBLICATIONS_PER_HOUR < 21 := by
  constructor <;> decide

/-- C2 (corrected): the ceiling the code enforces is per invocation: a
single `process_and_publish` call grants at most `MAX_PUBLICATIONS_PER_HOUR`
publications, counted by the local `published_count` starting at zero; the
rolling one-hour window of the ledger is not consulted, so the cap resets
with the next cycle rather than clearing when the oldest publication ages
out. -/
theorem C2_per_cycle_cap (items : List (CycleItem ℕ)) (clock : ℕ)
    (lastPub : Option ℕ) (ledger : Ledger ℕ) :
    (publishLoop items clock lastPub 0 ledger).1.length ≤ MAX_PUBLICATIONS_PER_HOUR := by
  have h := publishLoop_length items clock lastPub 0 ledger
  omega

/-! ## C5: the quality set of the Selector -/

/-- C5 counterexample: with six candidates scored 6..1 and
`target_count = 5`, the code's quality set is the top
`int(5 * 0.7) = 3` items, not the top `ceil(5 * 0.7) = 4` the claim states;
under an admissible resolution of `random.sample` (drawing the last two of
the remaining three) the 4th-ranked item (score 3) is not selected at all,
which the claimed top-`ceil` quality set would make impossible. -/
theorem C5_counterexample :
    top_count 5 = 3
    ∧ top_count_spec 5 = 4
    ∧ mkScored 4 3 ∉ select_interesting_articles sampleDrop C5articles 5 := by
  refine ⟨by decide, ?_, by decide⟩
  rw [top_count_spec, TOP_ARTICLES_PERCENTAGE]
  have h4 : ⌈((5 : ℕ) : ℚ) * (7/10)⌉ = (4 : ℤ) := by
    rw [Int.ceil_eq_iff]
    norm_num
  rw [h4]
  rfl

/-- C5 (corrected): for every resolution `s` of `random.sample` that returns
`k` of the given items without replacement, the Selector returns exactly the
top `int(target_count * 0.7) = target_count * 7 / 10` (truncation, not
ceiling) items of the stable descending sort, followed by
`min (remaining, target_count - quality_count)` picks drawn from the
remaining items without replacement. -/
theorem C5_selector_amended (s : List (Processed ℕ) → ℕ → List (Processed ℕ))
    (articles : List (Processed ℕ)) (n : ℕ)
    (hs : ∀ xs k, k ≤ xs.length → List.Sublist (s xs k) xs ∧ (s xs k).length = k) :
    ∃ picks,
      select_interesting_articles s articles n
        = (sort_by_score_desc articles).take (n * 7 / 10) ++ picks
      ∧ List.Sublist picks
          ((sort_by_score_desc articles).filter
            (fun a => ! ((sort_by_score_desc articles).take (n * 7 / 10)).contains a))
      ∧ picks.length
          = min ((sort_by_score_desc articles).filter
                (fun a => ! ((sort_by_score_desc articles).take (n * 7 / 10)).contains a)).length
              (n - n * 7 / 10) := by
  simp only [select_interesting_articles, top_count]
  by_cases ho : ((sort_by_score_desc articles).filter
      (fun a => ! ((sort_by_score_desc articles).take (n * 7 / 10)).contains a)).isEmpty = true
  · rw [if_pos ho]
    have hnil := List.isEmpty_iff.mp ho
    refine ⟨[], (List.append_nil _).symm, List.nil_sublist _, ?_⟩
    rw [hnil]
    simp
  · rw [if_neg ho]
    have hmin : min ((sort_by_score_desc articles).filter
          (fun a => ! ((sort_by_score_desc articles).take (n * 7 / 10)).contains a)).length
          (n - n * 7 / 10)
        ≤ ((sort_by_score_desc articles).filter
          (fun a => ! ((sort_by_score_desc articles).take (n * 7 / 10)).contains a)).length :=
      min_le_left _ _
    obtain ⟨hsub, hlen⟩ := hs _ _ hmin
    exact ⟨_, rfl, hsub, hlen⟩

/-- C5 witness: the amended description applied to the six-candidate batch
with the take-first sampler. -/
theorem C5_selector_amended_witness :
    ∃ picks,
      select_interesting_articles sampleTake C5articles 5
        = (sort_by_score_desc C5articles).take (5 * 7 / 10) ++ picks
      ∧ List.Sublist picks
          ((sort_by_score_desc C5articles).filter
            (fun a => ! ((sort_by_score_desc C5articles).take (5 * 7 / 10)).contains a))
      ∧ picks.length
          = min ((sort_by_score_desc C5articles).filter
                (fun a => ! ((sort_by_score_desc C5articles).take (5 * 7 / 10)).contains a)).length
              (5 - 5 * 7 / 10) :=
  C5_selector_amended sampleTake C5articles 5
    (fun xs k hk => ⟨List.take_sublist k xs, by simp only [sampleTake, List.length_take]; omega⟩)

/-! ## C6: deduplication is upstream of selection -/

theorem process_single_article_id (tr : Text → Text) (ctx : ScoreContext) (a : Article ℕ) :
    (process_single_article tr ctx a).id = a.id := rfl

/-- C6 (confirmed): in a cycle that fetches, processes and filters
candidates against a fixed ledger, every article reaching the selection
stage (the interest-filtered batch the publication plan is drawn from) has
an identifier that is not in the ledger: `fetch_feed` discards
already-published identifiers at fetch time, upstream of scoring and
selection. -/
theorem C6_upstream_dedup (tr : Text → Text) (pc : Article ℕ → ScoreContext)
    (ledger : Ledger ℕ) (feeds : List (List (Option (Article ℕ)))) :
    (filter_interesting (process_articles tr pc (fetch_articles ledger feeds))).all
      (fun p => ! is_article_published ledger p.id) = true := by
  rw [List.all_eq_true]
  intro p hp
  rw [filter_interesting, List.mem_filter] at hp
  obtain ⟨hp1, -⟩ := hp
  rw [process_articles, List.mem_map] at hp1
  obtain ⟨a, ha, rfl⟩ := hp1
  rw [fetch_articles, List.mem_flatten] at ha
  obtain ⟨l, hl, hal⟩ := ha
  rw [List.mem_map] at hl
  obtain ⟨f, -, rfl⟩ := hl
  rw [fetch_feed, List.mem_filter] at hal
  obtain ⟨-, h2⟩ := hal
  simpa [process_single_article_id] using h2

end NewsBot
